import Mathlib

/-!
Verification development for the Indian AQI Dashboard
(source file: aqi_dashboard.py).

The Python source is shallowly embedded: Python values that can flow
through the pipeline (None, float NaN, numbers, strings) are modelled by
the inductive type `PyVal`, with numbers as exact rationals; the network
is modelled by an oracle `String → FetchEvent` describing what each HTTP
request does; pandas operations (`dropna`, `to_numeric`, column
assignment) are modelled as explicit list transformations; exceptions
that the source does not catch are modelled with `Except`.
-/

namespace Aqi

/-- A Python value as it can appear in the pipeline's data cells:
`None`, a float `NaN` (which in Python fails every ordered comparison),
a real number (int or non-NaN float, modelled exactly as a rational),
or a string. -/
inductive PyVal where
  | none : PyVal
  | nan : PyVal
  | num : Rat → PyVal
  | str : String → PyVal
deriving DecidableEq, Repr

/-- Numeric value of a decimal digit list (most significant first). -/
def digitsVal (l : List Char) : Nat :=
  l.foldl (fun n c => n * 10 + (c.toNat - 48)) 0

/-- Model of the numeric-string parsing performed by
`pd.to_numeric(..., errors='coerce')`: an optional sign followed by a
decimal literal parses to an exact rational, anything else fails. -/
def parseNumString (s : String) : Option Rat :=
  let go : List Char → Option Rat := fun cs =>
    match cs.span (fun c => c != '.') with
    | (ip, []) =>
        if ip ≠ [] ∧ ip.all Char.isDigit then some ((digitsVal ip : Int) : Rat)
        else Option.none
    | (ip, _dot :: fp) =>
        if (ip ≠ [] ∨ fp ≠ []) ∧ ip.all Char.isDigit ∧ fp.all Char.isDigit then
          some ((digitsVal ip : Rat) + (digitsVal fp : Rat) / ((10 : Rat) ^ fp.length))
        else Option.none
  match s.toList with
  | '-' :: rest => (go rest).map (fun q => -q)
  | '+' :: rest => go rest
  | cs => go cs

/-- The numeric band chain of `get_aqi_category` (source lines 68-80),
for inputs that pass the `isinstance(aqi, (int, float))` test.  A float
`NaN` passes that test but fails every comparison of the chain, so it is
the `Option.none` case here and falls through to the final return. -/
def ratChain (q : Option Rat) : String × String :=
  match q with
  | Option.none => ("Unknown", "#808080")
  | some a =>
    if 0 ≤ a ∧ a ≤ 50 then ("Good", "#009966")
    else if 51 ≤ a ∧ a ≤ 100 then ("Moderate", "#FFDE33")
    else if 101 ≤ a ∧ a ≤ 150 then ("Unhealthy for Sensitive Groups", "#FF9933")
    else if 151 ≤ a ∧ a ≤ 200 then ("Unhealthy", "#CC0033")
    else if 201 ≤ a ∧ a ≤ 300 then ("Very Unhealthy", "#660099")
    else if 300 < a then ("Hazardous", "#7E0023")
    else ("Unknown", "#808080")

/-- Embedding of `get_aqi_category` (source lines 64-80): `None` and
strings fail the `isinstance` test and return Unknown; numbers and `NaN`
go through the band chain. -/
def get_aqi_category : PyVal → String × String
  | PyVal.none => ("Unknown", "#808080")
  | PyVal.str _ => ("Unknown", "#808080")
  | PyVal.nan => ratChain Option.none
  | PyVal.num q => ratChain (some q)

/-- The six (label, color) bands of the table in spec section 4.1
(excluding the Unknown row). -/
def aqiBands : List (String × String) :=
  [("Good", "#009966"), ("Moderate", "#FFDE33"),
   ("Unhealthy for Sensitive Groups", "#FF9933"), ("Unhealthy", "#CC0033"),
   ("Very Unhealthy", "#660099"), ("Hazardous", "#7E0023")]

/-- Modelled from the spec: the band table of section 4.1 read as a
partition of the nonnegative integers (first match wins). -/
def specBandNat (n : Nat) : String × String :=
  if n ≤ 50 then ("Good", "#009966")
  else if n ≤ 100 then ("Moderate", "#FFDE33")
  else if n ≤ 150 then ("Unhealthy for Sensitive Groups", "#FF9933")
  else if n ≤ 200 then ("Unhealthy", "#CC0033")
  else if n ≤ 300 then ("Very Unhealthy", "#660099")
  else ("Hazardous", "#7E0023")

/-- Modelled from the spec: membership of a nonnegative integer in band
`i` of the section 4.1 table. -/
def bandMem (i : Fin 6) (n : Nat) : Prop :=
  match i.val with
  | 0 => n ≤ 50
  | 1 => 51 ≤ n ∧ n ≤ 100
  | 2 => 101 ≤ n ∧ n ≤ 150
  | 3 => 151 ≤ n ∧ n ≤ 200
  | 4 => 201 ≤ n ∧ n ≤ 300
  | 5 => 301 ≤ n
  | _ => False

/-- (label, color) of band `i` of the section 4.1 table. -/
def bandOut (i : Fin 6) : String × String :=
  match i.val with
  | 0 => ("Good", "#009966")
  | 1 => ("Moderate", "#FFDE33")
  | 2 => ("Unhealthy for Sensitive Groups", "#FF9933")
  | 3 => ("Unhealthy", "#CC0033")
  | 4 => ("Very Unhealthy", "#660099")
  | _ => ("Hazardous", "#7E0023")

theorem get_aqi_category_natCast (n : Nat) :
    get_aqi_category (PyVal.num (n : Rat)) = specBandNat n := by
  show ratChain (some (n : Rat)) = specBandNat n
  simp only [ratChain]
  unfold specBandNat
  split_ifs <;> first
    | rfl
    | (exfalso; norm_cast at *; omega)

theorem bandMem_cover (n : Nat) : ∃ i : Fin 6, bandMem i n := by
  by_cases h1 : n ≤ 50
  · exact ⟨⟨0, by omega⟩, by simpa [bandMem] using h1⟩
  · by_cases h2 : n ≤ 100
    · exact ⟨⟨1, by omega⟩, by simp [bandMem]; omega⟩
    · by_cases h3 : n ≤ 150
      · exact ⟨⟨2, by omega⟩, by simp [bandMem]; omega⟩
      · by_cases h4 : n ≤ 200
        · exact ⟨⟨3, by omega⟩, by simp [bandMem]; omega⟩
        · by_cases h5 : n ≤ 300
          · exact ⟨⟨4, by omega⟩, by simp [bandMem]; omega⟩
          · exact ⟨⟨5, by omega⟩, by simp [bandMem]; omega⟩

theorem bandMem_disjoint (n : Nat) (i j : Fin 6) (hi : bandMem i n) (hj : bandMem j n) :
    i = j := by
  fin_cases i <;> fin_cases j <;> simp [bandMem] at hi hj ⊢ <;> omega

theorem specBandNat_eq_bandOut (n : Nat) (i : Fin 6) (h : bandMem i n) :
    specBandNat n = bandOut i := by
  fin_cases i <;> simp [bandMem] at h <;> simp [specBandNat, bandOut] <;> split_ifs <;>
    first | rfl | omega

theorem bandOut_mem_aqiBands (i : Fin 6) : bandOut i ∈ aqiBands := by
  fin_cases i <;> simp [bandOut, aqiBands]

theorem ratChain_neg (q : Rat) (h : q < 0) : ratChain (some q) = ("Unknown", "#808080") := by
  simp only [ratChain]
  split_ifs with h1 h2 h3 h4 h5 h6 <;> first
    | rfl
    | (exfalso;
       first
         | (obtain ⟨ha, -⟩ := h1; linarith)
         | (obtain ⟨ha, -⟩ := h2; linarith)
         | (obtain ⟨ha, -⟩ := h3; linarith)
         | (obtain ⟨ha, -⟩ := h4; linarith)
         | (obtain ⟨ha, -⟩ := h5; linarith)
         | linarith)

/-- C1 (amended): on the nonnegative integers, `get_aqi_category` agrees
with the section 4.1 band table, whose six bands are contiguous and
non-overlapping (every nonnegative integer lies in exactly one band, and
the classifier returns exactly that band's (label, color) pair); a null
input and a non-numeric input such as the string "x" return
("Unknown", "#808080"); but a negative numeric input also returns
("Unknown", "#808080") rather than a band of the table. -/
theorem c1_classifier_bands_amended :
    (∀ n : Nat, get_aqi_category (PyVal.num (n : Rat)) = specBandNat n) ∧
    (∀ n : Nat, ∃ i : Fin 6, bandMem i n) ∧
    (∀ n : Nat, ∀ i j : Fin 6, bandMem i n → bandMem j n → i = j) ∧
    (∀ n : Nat, ∀ i : Fin 6, bandMem i n → specBandNat n = bandOut i) ∧
    (∀ i : Fin 6, bandOut i ∈ aqiBands) ∧
    get_aqi_category PyVal.none = ("Unknown", "#808080") ∧
    get_aqi_category (PyVal.str "x") = ("Unknown", "#808080") ∧
    (∀ q : Rat, q < 0 → get_aqi_category (PyVal.num q) = ("Unknown", "#808080")) :=
  ⟨get_aqi_category_natCast, bandMem_cover, bandMem_disjoint,
   specBandNat_eq_bandOut, bandOut_mem_aqiBands, rfl, rfl,
   fun q h => ratChain_neg q h⟩

/-- C1 counterexample: the numeric input -1 is classified as
("Unknown", "#808080"), which is not one of the six bands of the
section 4.1 table, refuting the claim that every numeric input maps to
a band of that table. -/
theorem c1_negative_input_cex :
    get_aqi_category (PyVal.num (-1 : Rat)) = ("Unknown", "#808080") ∧
    ("Unknown", "#808080") ∉ aqiBands := by
  constructor
  · rfl
  · decide

/-- C1 witness: the amended theorem applied at concrete inputs, with the
hypotheses discharged there. -/
theorem c1_classifier_bands_witness :
    specBandNat 75 = bandOut ⟨1, by omega⟩ ∧
    get_aqi_category (PyVal.num (-5 : Rat)) = ("Unknown", "#808080") :=
  ⟨c1_classifier_bands_amended.2.2.2.1 75 ⟨1, by omega⟩ (by simp [bandMem]),
   c1_classifier_bands_amended.2.2.2.2.2.2.2 (-5) (by norm_num)⟩

/-- The `data.time` sub-dictionary of a successful payload: only the
key "s" (timestamp string) is read by the source. -/
structure TimeInfo where
  s : Option String
deriving DecidableEq, Repr

/-- The `data.city` sub-dictionary of a successful payload: only the
key "geo" (coordinate array) is read by the source. -/
structure CityInfo where
  geo : Option (List PyVal)
deriving DecidableEq, Repr

/-- The `data` dictionary of a successful payload, restricted to the
keys the source reads; `extraKeys` stands for any further keys the API
returns (they only matter for Python dict truthiness). -/
structure ApiData where
  aqi : Option PyVal
  city : Option CityInfo
  time : Option TimeInfo
  extraKeys : List String
deriving DecidableEq, Repr

/-- The value of the payload's "data" field: a dictionary on the "ok"
path, a string (the error message) otherwise. -/
inductive DataField where
  | str : String → DataField
  | obj : ApiData → DataField
deriving DecidableEq, Repr

/-- The decoded JSON body `{status: ..., data: ...}` of a response.
`status` is `Option.none` when the "status" key is absent (`.get`
returns None); a non-string status value would compare unequal to "ok"
just like an absent one. -/
structure Payload where
  status : Option String
  data : Option DataField
deriving DecidableEq, Repr

/-- What one `requests.get` call does, as seen by `get_aqi_data`'s
`try` block: raise a `requests.exceptions.RequestException` (timeout,
connection failure), raise some other exception, or deliver an HTTP
response with a status code and a decoded JSON body. -/
inductive FetchEvent where
  | requestExn : String → FetchEvent
  | otherExn : String → FetchEvent
  | ok : Nat → Payload → FetchEvent

/-- Python truthiness of the `data` dictionary (`elif aqi_data:`):
a dict is truthy iff it has at least one key. -/
def dataTruthy (d : ApiData) : Bool :=
  d.aqi.isSome || d.city.isSome || d.time.isSome || !d.extraKeys.isEmpty

/-- Python truthiness of the token (`if not API_TOKEN:`): `None` and
the empty string are falsy. -/
def tokenTruthy : Option String → Bool
  | Option.none => false
  | some s => s != ""

/-- Python truthiness of the error slot (`if error:`): `None` and the
empty string are falsy; a dict is truthy iff nonempty. -/
def errTruthy : Option DataField → Bool
  | Option.none => false
  | some (DataField.str s) => s != ""
  | some (DataField.obj d) => dataTruthy d

/-- Message text of `requests.raise_for_status`'s `HTTPError`
(modelled: the exact wording of the library message is not specified by
any claim, only that it is a network-failure message). -/
def httpErrorText (s : Nat) : String :=
  if s < 500 then toString s ++ " Client Error" else toString s ++ " Server Error"

/-- Abstract rendering of a Python dict by an f-string (modelled: no
claim depends on its exact form). -/
def dictRepr (_d : ApiData) : String := "\x7b...\x7d"

/-- What f-string interpolation makes of the error slot's value. -/
def pyStrOfDataField : DataField → String
  | DataField.str s => s
  | DataField.obj d => dictRepr d

def tokenNotConfiguredMsg : String :=
  "API Token not configured. Please set the AQI_API_TOKEN environment variable."

/-- The body of `get_aqi_data` after the token check (source lines
49-61): the `try` block with its two exception handlers.
`raise_for_status` raises `HTTPError` (a `RequestException`) exactly
for status codes 400-599. -/
def get_aqi_data_configured (ev : FetchEvent) : Option DataField × Option DataField :=
  match ev with
  | FetchEvent.requestExn m =>
      (Option.none, some (DataField.str ("Network error: " ++ m)))
  | FetchEvent.otherExn m =>
      (Option.none, some (DataField.str ("An unexpected error occurred: " ++ m)))
  | FetchEvent.ok status body =>
      if 400 ≤ status ∧ status ≤ 599 then
        (Option.none, some (DataField.str ("Network error: " ++ httpErrorText status)))
      else if body.status = some "ok" then
        match body.data with
        | some d => (some d, Option.none)
        -- data["data"] raises KeyError('data'); caught by `except Exception`
        | Option.none =>
            (Option.none, some (DataField.str "An unexpected error occurred: 'data'"))
      else
        (Option.none, some (body.data.getD (DataField.str "Unknown error from API.")))

/-- Embedding of `get_aqi_data` (source lines 44-61): the missing-token
early return, then the guarded HTTP call.  The first component is the
payload's data on success, the second the error value; the function is
total - no fault propagates to the caller. -/
def get_aqi_data (token : Option String) (ev : FetchEvent) :
    Option DataField × Option DataField :=
  if tokenTruthy token then get_aqi_data_configured ev
  else (Option.none, some (DataField.str tokenNotConfiguredMsg))

/-- One row-candidate of `all_data` (source lines 97-103): the
`data_point` dictionary. -/
structure DataPoint where
  city : String
  aqi : PyVal
  lat : PyVal
  lon : PyVal
  ts : String
deriving DecidableEq, Repr

/-- Embedding of the `data_point` construction (source lines 97-103).
`aqi_data.get("city", \x7b\x7d).get("geo", [None, None])[0]` indexes the
geo list: when the list is present but has fewer than two elements this
raises an uncaught `IndexError`. -/
def extract_data_point (name : String) (ad : ApiData) : Except String DataPoint :=
  let geo : List PyVal :=
    match ad.city with
    | Option.none => [PyVal.none, PyVal.none]
    | some c => c.geo.getD [PyVal.none, PyVal.none]
  match geo.get? 0, geo.get? 1 with
  | some la, some lo =>
      Except.ok
        { city := name, aqi := ad.aqi.getD PyVal.none, lat := la, lon := lo,
          ts := match ad.time with
                | Option.none => "N/A"
                | some t => t.s.getD "N/A" }
  | _, _ => Except.error "IndexError: list index out of range"

/-- The `elif aqi_data:` success branch of the loop: an empty dict or
empty string is falsy and is skipped silently; a nonempty string has no
`.get` attribute and raises; a truthy dict is turned into a row. -/
def processSuccess (name : String) (d : DataField) : Except String (Option DataPoint) :=
  match d with
  | DataField.str s =>
      if s = "" then Except.ok Option.none
      else Except.error "AttributeError: 'str' object has no attribute 'get'"
  | DataField.obj ad =>
      if dataTruthy ad then (extract_data_point name ad).map some
      else Except.ok Option.none

/-- The `CITIES` configuration (source lines 26-39), in declaration
order (Python dicts preserve insertion order). -/
def CITIES : List (String × String) :=
  [("Delhi", "delhi"), ("Mumbai", "mumbai"), ("Kolkata", "kolkata"),
   ("Chennai", "chennai"), ("Bengaluru", "bangalore"), ("Hyderabad", "hyderabad"),
   ("Pune", "pune"), ("Ahmedabad", "ahmedabad"), ("Jaipur", "jaipur"),
   ("Lucknow", "lucknow"), ("Bhopal", "bhopal"), ("Patna", "patna")]

/-- Accumulated state of the per-city loop: rows, failure messages, the
progress texts emitted after each city, and the number of HTTP requests
actually issued (`requests.get` is reached only when the token is
configured). -/
structure LoopAcc where
  rows : List DataPoint
  errors : List String
  trace : List String
  apiCalls : Nat
deriving DecidableEq, Repr

/-- The per-city loop of `fetch_all_cities_data` (source lines 92-108):
call the fetcher, append a failure message or a row, emit a progress
text, continue with the next city.  An uncaught exception inside the
loop aborts it (`Except.error`). -/
def collectLoop (token : Option String) (oracle : String → FetchEvent) :
    List (String × String) → Except String LoopAcc
  | [] => Except.ok ⟨[], [], [], 0⟩
  | (dn, an) :: rest =>
    let res := get_aqi_data token (oracle an)
    let calls := if tokenTruthy token then 1 else 0
    let stepRes : Except String (List DataPoint × List String) :=
      if errTruthy res.2 then
        Except.ok
          ([], ["Could not fetch data for " ++ dn ++ ": " ++
                pyStrOfDataField (res.2.getD (DataField.str ""))])
      else
        match res.1 with
        | Option.none => Except.ok ([], [])
        | some d =>
          match processSuccess dn d with
          | Except.error m => Except.error m
          | Except.ok o => Except.ok (o.toList, [])
    match stepRes with
    | Except.error m => Except.error m
    | Except.ok (rs, es) =>
      match collectLoop token oracle rest with
      | Except.error m => Except.error m
      | Except.ok acc =>
        Except.ok ⟨rs ++ acc.rows, es ++ acc.errors,
                   ("Fetching data for " ++ dn ++ "...") :: acc.trace,
                   calls + acc.apiCalls⟩

/-- Result of `fetch_all_cities_data`: the DataFrame rows and error
list it returns, plus the progress trace, the HTTP request count, and
whether the fatal missing-token message (`st.error`) was emitted. -/
structure CollectResult where
  rows : List DataPoint
  errors : List String
  trace : List String
  apiCalls : Nat
  fatal : Bool
deriving DecidableEq, Repr

/-- Embedding of `fetch_all_cities_data` (source lines 84-118): run the
per-city loop over `CITIES`, then, if no rows were collected and the
token is falsy, emit the fatal configuration message and return an
empty frame with an empty error list (discarding the per-city
failures). -/
def fetch_all_cities_data (token : Option String) (oracle : String → FetchEvent) :
    Except String CollectResult :=
  match collectLoop token oracle CITIES with
  | Except.error m => Except.error m
  | Except.ok acc =>
    if acc.rows = [] ∧ tokenTruthy token = false then
      Except.ok ⟨[], [], acc.trace, acc.apiCalls, true⟩
    else
      Except.ok ⟨acc.rows, acc.errors, acc.trace, acc.apiCalls, false⟩

/-- pandas NA test (`dropna`): `None` and float `NaN` count as missing;
numbers and strings do not. -/
def isNA : PyVal → Bool
  | PyVal.none => true
  | PyVal.nan => true
  | _ => false

/-- `pd.to_numeric(v, errors='coerce')` on one cell: numbers pass
through, `None` and `NaN` become `NaN`, a string becomes its parsed
number or `NaN` when it is not coercible. -/
def toNumericVal : PyVal → PyVal
  | PyVal.none => PyVal.nan
  | PyVal.nan => PyVal.nan
  | PyVal.num q => PyVal.num q
  | PyVal.str s =>
    match parseNumString s with
    | some q => PyVal.num q
    | Option.none => PyVal.nan

/-- The cell holds a value of the numeric (float) dtype: a number or
`NaN`. -/
def isNumericVal : PyVal → Bool
  | PyVal.num _ => true
  | PyVal.nan => true
  | _ => false

/-- `df.dropna(subset=['AQI', 'Latitude', 'Longitude'], ...)` (source
line 141): keep the rows whose three listed cells are all non-NA. -/
def dropnaAQILatLon (l : List DataPoint) : List DataPoint :=
  l.filter (fun r => !isNA r.aqi && !isNA r.lat && !isNA r.lon)

/-- `df['AQI'] = pd.to_numeric(df['AQI'], errors='coerce')` (source
line 142). -/
def coerceAQIList (l : List DataPoint) : List DataPoint :=
  l.map (fun r => { r with aqi := toNumericVal r.aqi })

/-- A row of the displayed table after the derived Category and Color
columns have been attached. -/
structure NormRow where
  city : String
  aqi : PyVal
  lat : PyVal
  lon : PyVal
  ts : String
  category : String
  color : String
deriving DecidableEq, Repr

/-- `df['Category'], df['Color'] = zip(*df['AQI'].apply(get_aqi_category))`
(source line 143), on a nonempty frame. -/
def addCategoryColor (l : List DataPoint) : List NormRow :=
  l.map (fun r =>
    { city := r.city, aqi := r.aqi, lat := r.lat, lon := r.lon, ts := r.ts,
      category := (get_aqi_category r.aqi).1, color := (get_aqi_category r.aqi).2 })

/-- The value computed by the three normalization statements. -/
def normalizeStages (l : List DataPoint) : List NormRow :=
  addCategoryColor (coerceAQIList (dropnaAQILatLon l))

/-- The normalization block (source lines 141-143) as a function of the
incoming rows.  When every row is dropped, line 143 unpacks the empty
`zip()` into two targets and raises `ValueError`. -/
def normalizationBlock (l : List DataPoint) : Except String (List NormRow) :=
  if dropnaAQILatLon l = [] then
    Except.error "ValueError: not enough values to unpack (expected 2, got 0)"
  else
    Except.ok (normalizeStages l)

/-- A DataFrame object in the heap: either still the raw frame returned
by `fetch_all_cities_data`, or the processed frame with the derived
columns. -/
inductive DfVal where
  | raw : List DataPoint → DfVal
  | processed : List NormRow → DfVal
deriving DecidableEq, Repr

/-- The normalization block acting on the heap: `r` is the index of the
object bound to `df`.  `dropna(..., inplace=True)` and the column
assignments update that object in place - the result heap has the same
objects, with slot `r` overwritten; no new frame is allocated.  On the
empty-survivor `ValueError` the (partially mutated) heap is abandoned. -/
def runNormalizationBlock (r : Nat) (h : List DfVal) : Except String (List DfVal) :=
  match h.get? r with
  | some (DfVal.raw l) =>
    if dropnaAQILatLon l = [] then
      Except.error "ValueError: not enough values to unpack (expected 2, got 0)"
    else
      Except.ok (h.set r (DfVal.processed (normalizeStages l)))
  | _ => Except.error "reference is not a raw DataFrame"

/-- The token hardcoded at source line 21. -/
def hardcodedToken : String := "b8a98b4df9ea8410319e6beaeab5a8729da1efd9"

/-- `os.environ['AQI_API_TOKEN'] = '...'` (source line 21): the process
environment after the unconditional module-level assignment. -/
def envAfterAssignment (env : String → Option String) : String → Option String :=
  fun k => if k = "AQI_API_TOKEN" then some hardcodedToken else env k

/-- `API_TOKEN = os.environ.get('AQI_API_TOKEN')` (source line 23),
evaluated after line 21, as a function of the pre-existing process
environment. -/
def API_TOKEN (env : String → Option String) : Option String :=
  envAfterAssignment env "AQI_API_TOKEN"

/-- The `ttl=600` of the `st.cache_data` decorator (source line 83). -/
def CACHE_TTL : Nat := 600

/-- The freshness cache holding the previously produced value and its
store time (seconds). -/
structure CacheState (α : Type) where
  entry : Option (Nat × α)
deriving DecidableEq, Repr

/-- Modelled from the documented contract of `st.cache_data(ttl=...)`
(the decorator at source line 83 is library code): if a cached entry
exists and its age is below the ttl, return it unchanged without
invoking the wrapped function; otherwise invoke the wrapped function
and replace the entry wholesale.  The third component records whether
the wrapped function was invoked (hence whether network calls could
occur). -/
def cachedCall {α : Type} (ttl : Nat) (now : Nat) (compute : Unit → α)
    (s : CacheState α) : α × CacheState α × Bool :=
  match s.entry with
  | some (t, b) =>
    if now - t < ttl then (b, s, false)
    else (compute (), ⟨some (now, compute ())⟩, true)
  | Option.none => (compute (), ⟨some (now, compute ())⟩, true)

theorem toNumericVal_isNumeric (v : PyVal) : isNumericVal (toNumericVal v) = true := by
  cases v with
  | none => rfl
  | nan => rfl
  | num q => rfl
  | str s =>
    simp only [toNumericVal]
    cases parseNumString s <;> rfl

/-- C2 (amended): every row surviving the normalization block has
non-null latitude and longitude and a numeric-dtype AQI cell, but that
cell may be NaN (null): because the null-drop of line 141 runs before
the numeric coercion of line 142, an AQI value that cannot be coerced
to a number is NOT discarded - it survives as NaN (classified
Unknown). -/
theorem c2_row_invariant_amended (l : List DataPoint) (out : List NormRow)
    (h : normalizationBlock l = Except.ok out) :
    ∀ r ∈ out, isNA r.lat = false ∧ isNA r.lon = false ∧ isNumericVal r.aqi = true := by
  unfold normalizationBlock at h
  split_ifs at h
  injection h with h2
  subst h2
  intro r hr
  unfold normalizeStages addCategoryColor at hr
  obtain ⟨p, hp, rfl⟩ := List.mem_map.mp hr
  unfold coerceAQIList at hp
  obtain ⟨p0, hp0, rfl⟩ := List.mem_map.mp hp
  unfold dropnaAQILatLon at hp0
  have hkeep := (List.mem_filter.mp hp0).2
  simp only [Bool.and_eq_true, Bool.not_eq_true'] at hkeep
  obtain ⟨⟨-, hlat⟩, hlon⟩ := hkeep
  exact ⟨hlat, hlon, toNumericVal_isNumeric _⟩

/-- C2 counterexample: a row whose AQI is the non-coercible string "-"
(with coordinates present) survives normalization with a NaN - that is,
null - AQI, refuting the claim that every surviving row carries a
non-null numeric AQI. -/
theorem c2_noncoercible_survives_cex :
    normalizationBlock [⟨"Delhi", PyVal.str "-", PyVal.num 28, PyVal.num 77, "t"⟩] =
      Except.ok
        [⟨"Delhi", PyVal.nan, PyVal.num 28, PyVal.num 77, "t", "Unknown", "#808080"⟩] ∧
    isNA PyVal.nan = true :=
  ⟨rfl, rfl⟩

/-- C2 witness: the amended theorem applied to a concrete batch and a
concrete surviving row. -/
theorem c2_row_invariant_witness :
    isNA (PyVal.num 28) = false ∧ isNA (PyVal.num 77) = false ∧
    isNumericVal PyVal.nan = true :=
  c2_row_invariant_amended
    [⟨"Delhi", PyVal.str "-", PyVal.num 28, PyVal.num 77, "t"⟩]
    [⟨"Delhi", PyVal.nan, PyVal.num 28, PyVal.num 77, "t", "Unknown", "#808080"⟩]
    rfl
    ⟨"Delhi", PyVal.nan, PyVal.num 28, PyVal.num 77, "t", "Unknown", "#808080"⟩
    (by simp)

theorem cities_stages (l : List DataPoint) :
    (normalizeStages l).map NormRow.city = (dropnaAQILatLon l).map DataPoint.city := by
  unfold normalizeStages addCategoryColor coerceAQIList
  rw [List.map_map, List.map_map]
  rfl

/-- C8 (amended): whenever the normalization block completes - that is,
at least one row survives the null-drop - it only removes rows
(`out.length ≤ l.length`) and the surviving rows keep the input's
relative order (the output city column is an order-preserving
subsequence of the input city column, no implicit resort); however, on
a nonempty batch in which every row is dropped, line 143 raises
ValueError instead of producing a table. -/
theorem c8_order_preserving_amended (l : List DataPoint) (out : List NormRow)
    (h : normalizationBlock l = Except.ok out) :
    out.length ≤ l.length ∧
    (out.map NormRow.city).Sublist (l.map DataPoint.city) := by
  unfold normalizationBlock at h
  split_ifs at h
  injection h with h2
  subst h2
  constructor
  · calc (normalizeStages l).length
        = (dropnaAQILatLon l).length := by
          unfold normalizeStages addCategoryColor coerceAQIList
          simp
      _ ≤ l.length := List.length_filter_le _ _
  · rw [cities_stages]
    exact List.Sublist.map DataPoint.city (List.filter_sublist l)

/-- C8 counterexample: on a nonempty batch whose only row has a null
AQI, the normalization block does not produce a table at all - line 143
raises ValueError - so the claimed property does not hold for every
batch. -/
theorem c8_empty_survivors_cex :
    normalizationBlock [⟨"Delhi", PyVal.none, PyVal.num 28, PyVal.num 77, "t"⟩] =
      Except.error "ValueError: not enough values to unpack (expected 2, got 0)" :=
  rfl

/-- C8 witness: the amended theorem applied to a concrete batch. -/
theorem c8_order_witness :
    ([⟨"Delhi", PyVal.num 42, PyVal.num 28, PyVal.num 77, "t", "Good", "#009966"⟩] :
        List NormRow).length ≤
      ([⟨"Delhi", PyVal.num 42, PyVal.num 28, PyVal.num 77, "t"⟩] :
        List DataPoint).length ∧
    (([⟨"Delhi", PyVal.num 42, PyVal.num 28, PyVal.num 77, "t", "Good", "#009966"⟩] :
        List NormRow).map NormRow.city).Sublist
      (([⟨"Delhi", PyVal.num 42, PyVal.num 28, PyVal.num 77, "t"⟩] :
        List DataPoint).map DataPoint.city) :=
  c8_order_preserving_amended
    [⟨"Delhi", PyVal.num 42, PyVal.num 28, PyVal.num 77, "t"⟩]
    [⟨"Delhi", PyVal.num 42, PyVal.num 28, PyVal.num 77, "t", "Good", "#009966"⟩]
    rfl

/-- C6 (amended): the normalization block updates the DataFrame object
in place (`dropna(..., inplace=True)` and in-place column assignments):
when at least one row survives, the heap slot that held the input batch
is overwritten with the processed table and the heap gains no new
object - no new Table is produced and the input batch does not survive
normalization unchanged. -/
theorem c6_inplace_amended (h : List DfVal) (r : Nat) (l : List DataPoint)
    (hr : h.get? r = some (DfVal.raw l)) (hk : ¬dropnaAQILatLon l = []) :
    runNormalizationBlock r h =
      Except.ok (h.set r (DfVal.processed (normalizeStages l))) ∧
    (h.set r (DfVal.processed (normalizeStages l))).length = h.length := by
  refine ⟨?_, List.length_set h r _⟩
  unfold runNormalizationBlock
  rw [hr]
  exact if_neg hk

/-- C6 counterexample: a two-row batch with one incomplete row.  After
the block, the single heap object that held the input batch holds a
one-row processed table instead, and the heap still has exactly one
object: the input batch was mutated in place and no new Table was
allocated, refuting the no-mutation claim. -/
theorem c6_mutation_cex :
    runNormalizationBlock 0
      [DfVal.raw [⟨"Delhi", PyVal.num 42, PyVal.num 28, PyVal.num 77, "t"⟩,
                  ⟨"Mumbai", PyVal.num 60, PyVal.none, PyVal.num 72, "t"⟩]] =
      Except.ok
        [DfVal.processed
          [⟨"Delhi", PyVal.num 42, PyVal.num 28, PyVal.num 77, "t", "Good", "#009966"⟩]] ∧
    DfVal.processed
        [⟨"Delhi", PyVal.num 42, PyVal.num 28, PyVal.num 77, "t", "Good", "#009966"⟩] ≠
      DfVal.raw [⟨"Delhi", PyVal.num 42, PyVal.num 28, PyVal.num 77, "t"⟩,
                 ⟨"Mumbai", PyVal.num 60, PyVal.none, PyVal.num 72, "t"⟩] ∧
    ([DfVal.raw [⟨"Delhi", PyVal.num 42, PyVal.num 28, PyVal.num 77, "t"⟩,
                 ⟨"Mumbai", PyVal.num 60, PyVal.none, PyVal.num 72, "t"⟩]] :
      List DfVal).length = 1 := by
  refine ⟨rfl, by decide, rfl⟩

/-- C6 witness: the amended theorem applied to a concrete heap. -/
theorem c6_inplace_witness :
    runNormalizationBlock 0
      [DfVal.raw [⟨"Patna", PyVal.num 120, PyVal.num 25, PyVal.num 85, "t"⟩]] =
      Except.ok
        [DfVal.processed
          [⟨"Patna", PyVal.num 120, PyVal.num 25, PyVal.num 85, "t",
            "Unhealthy for Sensitive Groups", "#FF9933"⟩]] ∧
    ([DfVal.processed
        [⟨"Patna", PyVal.num 120, PyVal.num 25, PyVal.num 85, "t",
          "Unhealthy for Sensitive Groups", "#FF9933"⟩]] : List DfVal).length = 1 :=
  c6_inplace_amended
    [DfVal.raw [⟨"Patna", PyVal.num 120, PyVal.num 25, PyVal.num 85, "t"⟩]] 0
    [⟨"Patna", PyVal.num 120, PyVal.num 25, PyVal.num 85, "t"⟩] rfl (by decide)

/-- The progress texts the loop emits, one per configured city. -/
def cityTrace : List String :=
  CITIES.map (fun p => "Fetching data for " ++ p.1 ++ "...")

/-- The failure entries the loop records when the token is missing,
one per configured city - recorded and then discarded by the fatal
branch. -/
def tokenMissingLoopErrors : List String :=
  CITIES.map (fun p => "Could not fetch data for " ++ p.1 ++ ": " ++ tokenNotConfiguredMsg)

/-- C3 (amended): with no token configured, `fetch_all_cities_data`
does NOT short-circuit: it still iterates all 12 cities (emitting the 12
per-city progress updates and recording 12 per-city failure entries),
though each `get_aqi_data` call returns the token error before any
network request (0 HTTP calls).  Only after the loop does it detect the
missing token, emit the fatal configuration message (`fatal = true`, a
signal distinct from a transient outage whose failure entries are
returned), discard the recorded failures, and return an empty batch
with an empty error list. -/
theorem c3_missing_token_amended (oracle : String → FetchEvent) :
    fetch_all_cities_data Option.none oracle =
      Except.ok ⟨[], [], cityTrace, 0, true⟩ ∧
    collectLoop Option.none oracle CITIES =
      Except.ok ⟨[], tokenMissingLoopErrors, cityTrace, 0⟩ ∧
    cityTrace.length = 12 :=
  ⟨rfl, rfl, rfl⟩

/-- C3 counterexample: with no token configured, the per-city loop
still runs for every city - it emits 12 progress updates and records 12
failure entries (later discarded) - refuting the claim that collectAll
short-circuits immediately without per-city work. -/
theorem c3_no_shortcircuit_cex :
    collectLoop Option.none (fun _ => FetchEvent.requestExn "boom") CITIES =
      Except.ok ⟨[], tokenMissingLoopErrors, cityTrace, 0⟩ ∧
    tokenMissingLoopErrors.length = 12 ∧
    fetch_all_cities_data Option.none (fun _ => FetchEvent.requestExn "boom") =
      Except.ok ⟨[], [], cityTrace, 0, true⟩ ∧
    cityTrace ≠ [] :=
  ⟨rfl, rfl, rfl, by decide⟩

theorem get_aqi_data_shape (tok : Option String) (ev : FetchEvent) :
    ((get_aqi_data tok ev).1.isSome = true ∧ (get_aqi_data tok ev).2 = Option.none) ∨
    ((get_aqi_data tok ev).1 = Option.none ∧ (get_aqi_data tok ev).2.isSome = true) := by
  unfold get_aqi_data
  by_cases ht : tokenTruthy tok = true
  · rw [if_pos ht]
    cases ev with
    | requestExn m => right; exact ⟨rfl, rfl⟩
    | otherExn m => right; exact ⟨rfl, rfl⟩
    | ok s b =>
      simp only [get_aqi_data_configured]
      split_ifs with h1 h2
      · right; exact ⟨rfl, rfl⟩
      · cases hb : b.data with
        | none => right; simp [hb]
        | some d => left; simp [hb]
      · right; exact ⟨rfl, rfl⟩
  · rw [if_neg ht]
    right; exact ⟨rfl, rfl⟩

/-- C4: the fetcher returns its outcome as a data pair and never
propagates a raised fault: every input yields either (data, no error)
or (no data, an error); a `RequestException` (network fault, and also
the `HTTPError` that `raise_for_status` raises for every status code in
400-599) yields a "Network error: ..." message; any other exception
yields the generic "An unexpected error occurred: ..." message; and a
success status whose payload status is not "ok" yields the payload's
"data" field (the field that carries the API's error message) or the
fallback "Unknown error from API." when that field is absent. -/
theorem c4_fetcher_result_as_data :
    (∀ (tok : Option String) (ev : FetchEvent),
      ((get_aqi_data tok ev).1.isSome = true ∧ (get_aqi_data tok ev).2 = Option.none) ∨
      ((get_aqi_data tok ev).1 = Option.none ∧ (get_aqi_data tok ev).2.isSome = true)) ∧
    (∀ (tok : Option String) (m : String), tokenTruthy tok = true →
      get_aqi_data tok (FetchEvent.requestExn m) =
        (Option.none, some (DataField.str ("Network error: " ++ m)))) ∧
    (∀ (tok : Option String) (m : String), tokenTruthy tok = true →
      get_aqi_data tok (FetchEvent.otherExn m) =
        (Option.none, some (DataField.str ("An unexpected error occurred: " ++ m)))) ∧
    (∀ (tok : Option String) (s : Nat) (b : Payload), tokenTruthy tok = true →
      400 ≤ s → s ≤ 599 →
      get_aqi_data tok (FetchEvent.ok s b) =
        (Option.none, some (DataField.str ("Network error: " ++ httpErrorText s)))) ∧
    (∀ (tok : Option String) (s : Nat) (b : Payload), tokenTruthy tok = true →
      ¬(400 ≤ s ∧ s ≤ 599) → b.status ≠ some "ok" →
      get_aqi_data tok (FetchEvent.ok s b) =
        (Option.none, some (b.data.getD (DataField.str "Unknown error from API.")))) := by
  refine ⟨get_aqi_data_shape, ?_, ?_, ?_, ?_⟩
  · intro tok m ht
    unfold get_aqi_data
    rw [if_pos ht]
    rfl
  · intro tok m ht
    unfold get_aqi_data
    rw [if_pos ht]
    rfl
  · intro tok s b ht h4 h5
    unfold get_aqi_data
    rw [if_pos ht]
    simp only [get_aqi_data_configured]
    rw [if_pos ⟨h4, h5⟩]
  · intro tok s b ht hne hst
    unfold get_aqi_data
    rw [if_pos ht]
    simp only [get_aqi_data_configured]
    rw [if_neg hne, if_neg hst]

/-- C4 witness: the theorem applied at concrete inputs, with the
hypotheses discharged there. -/
theorem c4_fetcher_witness :
    get_aqi_data (some "t") (FetchEvent.requestExn "timeout") =
      (Option.none, some (DataField.str ("Network error: " ++ "timeout"))) ∧
    get_aqi_data (some "t") (FetchEvent.ok 200 ⟨some "error", Option.none⟩) =
      (Option.none, some (DataField.str "Unknown error from API.")) :=
  ⟨c4_fetcher_result_as_data.2.1 (some "t") "timeout" (by decide),
   c4_fetcher_result_as_data.2.2.2.2 (some "t") 200 ⟨some "error", Option.none⟩
     (by decide) (by omega) (by decide)⟩

/-- A payload's geo field, when present, has at least the two elements
the source indexes. -/
def geoOk (ad : ApiData) : Prop :=
  ∀ c l, ad.city = some c → c.geo = some l → 2 ≤ l.length

/-- The geo pair is absent: either the city dict is missing or it has
no geo key. -/
def geoAbsent (ad : ApiData) : Prop :=
  ad.city = Option.none ∨ ∃ c, ad.city = some c ∧ c.geo = Option.none

/-- C5 (amended): on the "ok" path, extracting the row never raises and
applies the documented defaults - null AQI when the field is absent,
null coordinates when the geo pair is absent, "N/A" when the timestamp
is absent - PROVIDED any geo list that is present has at least two
elements; a present but malformed geo list with fewer than two elements
raises an uncaught IndexError instead. -/
theorem c5_extraction_defaults_amended (name : String) (ad : ApiData) (hg : geoOk ad) :
    ∃ p, extract_data_point name ad = Except.ok p ∧ p.city = name ∧
      (ad.aqi = Option.none → p.aqi = PyVal.none) ∧
      (ad.time = Option.none → p.ts = "N/A") ∧
      (∀ t, ad.time = some t → t.s = Option.none → p.ts = "N/A") ∧
      (geoAbsent ad → p.lat = PyVal.none ∧ p.lon = PyVal.none) := by
  obtain ⟨aqiF, cityF, timeF, extraF⟩ := ad
  cases cityF with
  | none =>
    refine ⟨_, rfl, ?_, ?_, ?_, ?_, ?_⟩
    · rfl
    · intro h; subst h; rfl
    · intro h; subst h; rfl
    · intro t ht hs; subst ht; obtain ⟨sF⟩ := t; subst hs; rfl
    · exact fun _ => ⟨rfl, rfl⟩
  | some c =>
    obtain ⟨geoF⟩ := c
    cases geoF with
    | none =>
      refine ⟨_, rfl, ?_, ?_, ?_, ?_, ?_⟩
      · rfl
      · intro h; subst h; rfl
      · intro h; subst h; rfl
      · intro t ht hs; subst ht; obtain ⟨sF⟩ := t; subst hs; rfl
      · exact fun _ => ⟨rfl, rfl⟩
    | some gl =>
      have h2 : 2 ≤ gl.length := hg ⟨some gl⟩ gl rfl rfl
      have h0 : gl.get? 0 = some (gl.get ⟨0, by omega⟩) := List.get?_eq_get (by omega)
      have h1 : gl.get? 1 = some (gl.get ⟨1, by omega⟩) := List.get?_eq_get (by omega)
      clear hg
      have hok : extract_data_point name ⟨aqiF, some ⟨some gl⟩, timeF, extraF⟩ =
          Except.ok
            { city := name, aqi := aqiF.getD PyVal.none,
              lat := gl.get ⟨0, by omega⟩, lon := gl.get ⟨1, by omega⟩,
              ts := match timeF with
                    | Option.none => "N/A"
                    | some t => t.s.getD "N/A" } := by
        simp only [extract_data_point, Option.getD_some]
        rw [h0, h1]
      refine ⟨_, hok, rfl, ?_, ?_, ?_, ?_⟩
      · intro h; subst h; rfl
      · intro h; subst h; rfl
      · intro t ht hs; subst ht; obtain ⟨sF⟩ := t; subst hs; rfl
      · intro hab
        exfalso
        rcases hab with h | ⟨c', hc', hg'⟩
        · exact Option.noConfusion h
        · injection hc' with e
          subst e
          exact Option.noConfusion hg'

/-- C5 counterexample: a successful payload whose geo field is present
but is an empty list makes the row extraction raise an uncaught
IndexError, refuting the claim that extraction never raises for every
successful payload shape. -/
theorem c5_short_geo_cex :
    extract_data_point "Delhi"
      ⟨some (PyVal.num 42), some ⟨some []⟩, Option.none, []⟩ =
      Except.error "IndexError: list index out of range" :=
  rfl

/-- C5 witness: the amended theorem applied to a concrete payload with
every optional field absent. -/
theorem c5_extraction_defaults_witness :
    ∃ p, extract_data_point "Delhi" ⟨Option.none, Option.none, Option.none, []⟩ =
        Except.ok p ∧ p.city = "Delhi" ∧
      ((⟨Option.none, Option.none, Option.none, []⟩ : ApiData).aqi = Option.none →
        p.aqi = PyVal.none) ∧
      ((⟨Option.none, Option.none, Option.none, []⟩ : ApiData).time = Option.none →
        p.ts = "N/A") ∧
      (∀ t, (⟨Option.none, Option.none, Option.none, []⟩ : ApiData).time = some t →
        t.s = Option.none → p.ts = "N/A") ∧
      (geoAbsent ⟨Option.none, Option.none, Option.none, []⟩ →
        p.lat = PyVal.none ∧ p.lon = PyVal.none) :=
  c5_extraction_defaults_amended "Delhi" ⟨Option.none, Option.none, Option.none, []⟩
    (fun _ _ hc _ => Option.noConfusion hc)

/-- The network behaviour for the C7 scenario: the fetches for Mumbai,
Chennai and Patna fail with a timeout, the other nine succeed with a
complete payload. -/
def oracleThreeFail : String → FetchEvent := fun api =>
  if api = "mumbai" ∨ api = "chennai" ∨ api = "patna" then
    FetchEvent.requestExn "Connection timed out"
  else
    FetchEvent.ok 200
      ⟨some "ok",
       some (DataField.obj
         ⟨some (PyVal.num 100), some ⟨some [PyVal.num 20, PyVal.num 77]⟩,
          some ⟨some "2026-10-12 10:00:00"⟩, []⟩)⟩

/-- C7: in the configured 12-city run where exactly 3 per-city fetches
fail and 9 succeed, the batch has exactly 9 rows and exactly 3 failure
entries; each failure entry carries the failed city's original display
name; and iteration continued past each failure in the declared
configuration order (both the row cities and the failure entries appear
in `CITIES` order). -/
theorem c7_partial_failure :
    ∃ r, fetch_all_cities_data (some "token") oracleThreeFail = Except.ok r ∧
      r.rows.length = 9 ∧ r.errors.length = 3 ∧
      r.errors =
        ["Could not fetch data for Mumbai: Network error: Connection timed out",
         "Could not fetch data for Chennai: Network error: Connection timed out",
         "Could not fetch data for Patna: Network error: Connection timed out"] ∧
      r.rows.map DataPoint.city =
        ["Delhi", "Kolkata", "Bengaluru", "Hyderabad", "Pune", "Ahmedabad",
         "Jaipur", "Lucknow", "Bhopal"] ∧
      r.fatal = false ∧ r.apiCalls = 12 := by
  refine ⟨_, rfl, rfl, rfl, rfl, rfl, rfl, rfl⟩

/-- C9: the freshness cache of `st.cache_data(ttl=600)`: a second call
whose cached batch is younger than 600 seconds returns that batch
bit-identical, leaves the cache entry unchanged and does not invoke the
fetch (no network calls); once the age reaches the threshold the fetch
runs again and the cached batch is replaced wholesale. -/
theorem c9_cache_freshness (token : Option String) (oracle : String → FetchEvent)
    (t now : Nat) (b : Except String CollectResult) :
    (now - t < CACHE_TTL →
      cachedCall CACHE_TTL now (fun _ => fetch_all_cities_data token oracle)
        ⟨some (t, b)⟩ = (b, ⟨some (t, b)⟩, false)) ∧
    (CACHE_TTL ≤ now - t →
      cachedCall CACHE_TTL now (fun _ => fetch_all_cities_data token oracle)
        ⟨some (t, b)⟩ =
        (fetch_all_cities_data token oracle,
         ⟨some (now, fetch_all_cities_data token oracle)⟩, true)) := by
  constructor
  · intro h
    unfold cachedCall
    exact if_pos h
  · intro h
    unfold cachedCall
    exact if_neg (by omega)

/-- C9 witness: the theorem applied at a concrete cache state whose age
is below the threshold. -/
theorem c9_cache_witness :
    cachedCall CACHE_TTL 10
      (fun _ => fetch_all_cities_data Option.none (fun _ => FetchEvent.requestExn "e"))
      ⟨some (0, Except.ok ⟨[], [], [], 0, true⟩)⟩ =
      (Except.ok ⟨[], [], [], 0, true⟩,
       ⟨some (0, Except.ok ⟨[], [], [], 0, true⟩)⟩, false) :=
  (c9_cache_freshness Option.none (fun _ => FetchEvent.requestExn "e") 0 10
    (Except.ok ⟨[], [], [], 0, true⟩)).1 (by decide)

/-- The failure entries of a run in which every request times out with
message "x" while the token is configured. -/
def networkFailErrors : List String :=
  CITIES.map (fun p => "Could not fetch data for " ++ p.1 ++ ": Network error: x")

/-- C10: source line 21 unconditionally writes the hardcoded token into
the AQI_API_TOKEN environment variable before line 23 reads it, so
whatever the pre-existing environment, API_TOKEN is that non-empty
string; consequently the missing-token branch of `get_aqi_data` and the
fatal-configuration branch of `fetch_all_cities_data` are never
taken. -/
theorem c10_token_always_set :
    (∀ env : String → Option String, API_TOKEN env = some hardcodedToken) ∧
    hardcodedToken ≠ "" ∧
    (∀ env : String → Option String, tokenTruthy (API_TOKEN env) = true) ∧
    (∀ (env : String → Option String) (ev : FetchEvent),
      get_aqi_data (API_TOKEN env) ev = get_aqi_data_configured ev) ∧
    (∀ (env : String → Option String) (oracle : String → FetchEvent) (r : CollectResult),
      fetch_all_cities_data (API_TOKEN env) oracle = Except.ok r → r.fatal = false) := by
  have htok : ∀ env : String → Option String, API_TOKEN env = some hardcodedToken :=
    fun env => by simp [API_TOKEN, envAfterAssignment]
  have htr : ∀ env : String → Option String, tokenTruthy (API_TOKEN env) = true :=
    fun env => by rw [htok]; decide
  refine ⟨htok, by decide, htr, ?_, ?_⟩
  · intro env ev
    unfold get_aqi_data
    rw [if_pos (htr env)]
  · intro env oracle r h
    unfold fetch_all_cities_data at h
    cases hc : collectLoop (API_TOKEN env) oracle CITIES with
    | error m => rw [hc] at h; cases h
    | ok acc =>
      rw [hc] at h
      have h2 : (if acc.rows = [] ∧ tokenTruthy (API_TOKEN env) = false then
            (Except.ok ⟨[], [], acc.trace, acc.apiCalls, true⟩ :
              Except String CollectResult)
          else Except.ok ⟨acc.rows, acc.errors, acc.trace, acc.apiCalls, false⟩) =
          Except.ok r := h
      have hcond : ¬(acc.rows = [] ∧ tokenTruthy (API_TOKEN env) = false) := by
        rintro ⟨-, hfalse⟩
        rw [htr env] at hfalse
        cases hfalse
      rw [if_neg hcond] at h2
      injection h2 with h3
      subst h3
      rfl

/-- C10 witness: the theorem applied at a concrete environment and a
concrete all-requests-fail run; the resulting batch is empty yet the
fatal branch is not taken - the errors are the per-city entries. -/
theorem c10_token_witness :
    tokenTruthy (API_TOKEN (fun _ => Option.none)) = true ∧
    (⟨[], networkFailErrors, cityTrace, 12, false⟩ : CollectResult).fatal = false :=
  ⟨c10_token_always_set.2.2.1 (fun _ => Option.none),
   c10_token_always_set.2.2.2.2 (fun _ => Option.none)
     (fun _ => FetchEvent.requestExn "x")
     ⟨[], networkFailErrors, cityTrace, 12, false⟩ rfl⟩

end Aqi
